import Mathlib

/-
  Verification development for the AdvTurtle command-queue motion and
  rendering engine (AdvTurtle/_internal/core.py).

  Shallow embedding conventions:
  * Python floats are modelled as real numbers; `math.hypot` / `math.dist`
    become `Real.sqrt` of sums of squares.
  * Positions (`Vec2D`) are pairs of reals.
  * Python lists become `List`; `collections.deque` used as the command
    queue becomes a `List` with `append`/`popleft`/`pop` at the obvious ends.
  * Code that can raise (`list.pop` on an empty list, `del l[i]` out of
    range, `set_color` with no arguments) is modelled in `Option`, with
    `none` meaning the Python call raises.
  * Raster surfaces are modelled by the list of drawing operations issued
    against them; glyph images and the rotation cache are external raster
    resources (out of scope) and are not part of the state.
-/

set_option maxHeartbeats 1000000

abbrev Vec := ℝ × ℝ

/-- Vec2D.__abs__ (core.py line 59): math.hypot of the components. -/
noncomputable def vabs (v : Vec) : ℝ := Real.sqrt (v.1 ^ 2 + v.2 ^ 2)

/-- math.dist as used by Turtle._command_done (core.py line 627). -/
noncomputable def mathDist (p q : Vec) : ℝ := Real.sqrt ((p.1 - q.1) ^ 2 + (p.2 - q.2) ^ 2)

/-- pygame.Color modelled as an RGB integer triple. -/
abbrev Color := ℤ × ℤ × ℤ

/-- The argument shapes a `set_color(*args)` call can carry: no arguments,
a single color value, or separate r, g, b components (core.py lines 96-108). -/
inductive ColorArgs
  | noArgs
  | one (c : Color)
  | rgb (r g b : ℤ)

/-- Circle direction (the Python code uses the strings left and right;
an inductive type replaces the validated string, so the ValueError branch
for an unknown direction string has no counterpart here). -/
inductive Dir
  | left
  | right

/-- A queued command tuple (operation identifier plus arguments), covering
the command table of core.py lines 286-322 plus the callable commands
Turtle._clear and Turtle._dot.  The goto/teleport/head_towards overloads
(point vs separate coordinates) are canonicalised. -/
inductive Cmd
  | forward (d : ℝ)
  | goto (x y : ℝ)
  | teleport (x y : ℝ)
  | left (a : ℝ)
  | right (a : ℝ)
  | home
  | setx (x : ℝ)
  | sety (y : ℝ)
  | setHeading (a : ℝ)
  | headTowards (x y : ℝ)
  | hide
  | show_
  | penup
  | pendown
  | setSize (n : ℤ)
  | setSpeed (v : ℝ)
  | setColor (args : ColorArgs)
  | clear
  | dot

/-- A drawing operation issued against a surface: pygame.draw.lines
(open polyline with color and width) or pygame.draw.rect (the dot). -/
inductive DrawOp
  | lines (c : Color) (w : ℤ) (pts : List Vec)
  | rect (c : Color) (p : Vec)

/-- The merged Turtle state (Turtle inherits Pen and Navigator): fields of
Turtle.__init__, core.py lines 438-473. -/
@[ext] structure TurtleState where
  origin : Vec
  renderPos : Vec
  targetPos : Vec
  heading : ℝ
  speed : ℝ
  color : Color
  size : ℤ
  penDown : Bool
  visible : Bool
  path : List (List Vec)
  undoStack : ℕ
  redoPath : List Vec
  redoCommand : List Cmd
  canvas : List DrawOp
  commandQueue : List Cmd
  currentCommand : Option Cmd

/-- Canvas centre used by Turtle.__init__ and Turtle.reset. -/
noncomputable def screenCenter (w h : ℝ) : Vec := (w / 2, h / 2)

/-- Turtle.__init__ (core.py lines 438-473) for a figure-less turtle on a
w-by-h screen.  The undo-stack depth is a natural number, mirroring the
constructor guard that rejects negative depths. -/
noncomputable def mkTurtle (w h : ℝ) (undoStack : ℕ) (visible : Bool) : TurtleState :=
  { origin := screenCenter w h
    renderPos := screenCenter w h
    targetPos := screenCenter w h
    heading := 0
    speed := 50
    color := (0, 0, 0)
    size := 2
    penDown := true
    visible := visible
    path := [[]]
    undoStack := undoStack
    redoPath := []
    redoCommand := []
    canvas := []
    commandQueue := []
    currentCommand := none }

/- ### List helpers mirroring Python list primitives -/

/-- Python list.pop(0): fails on an empty list. -/
def popFront : List α → Option (List α)
  | [] => none
  | _ :: r => some r

/-- Python list.pop() returning the popped element and the rest:
fails on an empty list. -/
def popBackSplit (l : List α) : Option (α × List α) :=
  (l.getLast?).map (fun a => (a, l.dropLast))

/-- Python list.pop(i) for a nonnegative index, dropping the element. -/
def listPopAt (l : List α) (i : ℕ) : Option (List α) :=
  if i < l.length then some (l.eraseIdx i) else none

/-- Python del l[i] for a nonnegative index. -/
def listDelAt (l : List α) (i : ℕ) : Option (List α) :=
  if i < l.length then some (l.eraseIdx i) else none

/- ### Navigator operations (executed semantics) -/

/-- Navigator.forward (core.py lines 148-152): offsets the target by
(d·cos h, -d·sin h) with the heading converted to radians. -/
noncomputable def navForward (t : TurtleState) (distance : ℝ) : TurtleState :=
  let rad := t.heading * Real.pi / 180
  let dx := distance * Real.cos rad
  let dy := -distance * Real.sin rad
  { t with targetPos := (t.targetPos.1 + dx, t.targetPos.2 + dy) }

/-- Python float modulo (result has the sign of the modulus). -/
noncomputable def pymod (x m : ℝ) : ℝ := x - m * ⌊x / m⌋

open Classical in
/-- math.atan2, case split as in the C convention (atan2 0 0 = 0). -/
noncomputable def atan2R (y x : ℝ) : ℝ :=
  if 0 < x then Real.arctan (y / x)
  else if x < 0 then
    (if 0 ≤ y then Real.arctan (y / x) + Real.pi else Real.arctan (y / x) - Real.pi)
  else
    (if 0 < y then Real.pi / 2 else if y < 0 then -(Real.pi / 2) else 0)

/-- Navigator.towards (core.py lines 227-241) for a point argument:
degrees(atan2(-dy, dx)) normalised into [0, 360). -/
noncomputable def navTowards (t : TurtleState) (x y : ℝ) : ℝ :=
  let dx := x - t.renderPos.1
  let dy := y - t.renderPos.2
  pymod (atan2R (-dy) dx * 180 / Real.pi) 360

/-- Navigator.goto (core.py lines 159-165): sets the target and turns the
heading towards it. -/
noncomputable def navGoto (t : TurtleState) (x y : ℝ) : TurtleState :=
  { t with targetPos := (x, y), heading := navTowards t x y }

/-- Navigator.teleport (core.py lines 172-178): sets render and target
position simultaneously. -/
def navTeleport (t : TurtleState) (x y : ℝ) : TurtleState :=
  { t with renderPos := (x, y), targetPos := (x, y) }

/-- Navigator.left (core.py lines 180-181). -/
def navLeft (t : TurtleState) (angle : ℝ) : TurtleState :=
  { t with heading := t.heading + angle }

/-- Navigator.right (core.py lines 183-184). -/
def navRight (t : TurtleState) (angle : ℝ) : TurtleState :=
  { t with heading := t.heading - angle }

open Classical in
/-- Navigator._update (core.py lines 269-284): interpolate the render
position toward the target by at most speed·dt. -/
noncomputable def navUpdate (t : TurtleState) (dt : ℝ) : TurtleState :=
  let delta : Vec := (t.targetPos.1 - t.renderPos.1, t.targetPos.2 - t.renderPos.2)
  let dist := vabs delta
  if dist = 0 then t
  else
    let step := min (t.speed * dt) dist
    let direction : Vec := (delta.1 / dist, delta.2 / dist)
    { t with renderPos :=
        (t.renderPos.1 + direction.1 * step, t.renderPos.2 + direction.2 * step) }

/- ### Pen operations (executed semantics) -/

/-- Pen.set_color (core.py lines 101-108): raises ValueError when called
with no arguments, otherwise normalises to a color triple. -/
def penSetColor : ColorArgs → Option Color
  | ColorArgs.noArgs => none
  | ColorArgs.one c => some c
  | ColorArgs.rgb r g b => some (r, g, b)

/- ### The commit pipeline (Turtle._commit, core.py lines 646-667) -/

/-- The slice segment[:-undo_stack] of Python (note that for a zero depth
this is segment[:0], the empty list). -/
def commitSlice (d : ℕ) (s : List Vec) : List Vec :=
  if d = 0 then [] else s.take (s.length - d)

/-- The cumulative effect on a segment of the deletions
del self.path[i][j] performed by the inner loop of Turtle._commit for
j = 0, 1, ..., k-1 in that order (each deletion re-indexes the list, and
an out-of-range index makes the whole call raise IndexError). -/
def delSeq (seg : List Vec) : ℕ → Option (List Vec)
  | 0 => some seg
  | k + 1 => (delSeq seg k).bind (fun s => listDelAt s k)

/-- Accumulator for the segment walk of Turtle._commit: the live path list
being mutated and the polylines drawn so far. -/
structure CommitAcc where
  cur : List (List Vec)
  drawn : List DrawOp

/-- One iteration of the outer loop of Turtle._commit for the snapshot
entry (i, segment): the non-permanent branch pops index i from the
current (already re-indexed) path; segments shorter than 2, or whose
committed slice is shorter than 3, are skipped; otherwise in permanent
mode on the last segment the deletion loop runs, and the polyline is
drawn. -/
def commitSegStep (perm uus : Bool) (d : ℕ) (col : Color) (sz : ℤ) (last : ℕ)
    (acc : CommitAcc) (iseg : ℕ × List Vec) : Option CommitAcc :=
  let i := iseg.1
  let segment := iseg.2
  let step1 : Option (List (List Vec)) :=
    if ¬perm ∧ i ≠ last then listPopAt acc.cur i else some acc.cur
  step1.bind (fun cur =>
    if segment.length < 2 then some ⟨cur, acc.drawn⟩
    else
      let p := if uus ∨ i ≠ last then segment else commitSlice d segment
      if p.length < 3 then some ⟨cur, acc.drawn⟩
      else
        let afterDel : Option (List (List Vec)) :=
          if perm ∧ i = last then
            (delSeq segment (p.length - 2)).map (fun s => cur.set i s)
          else some cur
        afterDel.map (fun cur2 => ⟨cur2, acc.drawn ++ [DrawOp.lines col sz p]⟩))

/-- Turtle._commit (core.py lines 646-667): walks an index-stamped
snapshot of the path (enumerate over self.path, or over self.path.copy()
in the non-permanent mode, which yields the same sequence because
permanent mode never changes the outer list).  Returns the new live path
and the polylines drawn onto the target surface, or `none` when the
Python code raises IndexError. -/
def commitT (perm uus : Bool) (t : TurtleState) :
    Option (List (List Vec) × List DrawOp) :=
  ((t.path.enum).foldlM
      (commitSegStep perm uus t.undoStack t.color t.size (t.path.length - 1))
      ⟨t.path, []⟩).map
    (fun acc => (acc.cur, acc.drawn))

/-- Commit onto the turtle's own canvas (the calls
self._commit(self._canvas, ...) in Turtle._update and Turtle._new_path). -/
def commitToCanvas (perm uus : Bool) (t : TurtleState) : Option TurtleState :=
  (commitT perm uus t).map
    (fun r => { t with path := r.1, canvas := t.canvas ++ r.2 })

/- ### Turtle public methods: enqueue only (core.py lines 493-565) -/

/-- Turtle.set_size (line 493). -/
def setSizeT (t : TurtleState) (size : ℤ) : TurtleState :=
  { t with commandQueue := t.commandQueue ++ [Cmd.setSize size] }

/-- Turtle.set_speed (line 496). -/
def setSpeedT (t : TurtleState) (speed : ℝ) : TurtleState :=
  { t with commandQueue := t.commandQueue ++ [Cmd.setSpeed speed] }

/-- Turtle.set_color (lines 499-500): appends the raw argument tuple with
no validation. -/
def setColorT (t : TurtleState) (args : ColorArgs) : TurtleState :=
  { t with commandQueue := t.commandQueue ++ [Cmd.setColor args] }

/-- Turtle.clear (line 502). -/
def clearT (t : TurtleState) : TurtleState :=
  { t with commandQueue := t.commandQueue ++ [Cmd.clear] }

/-- Turtle.hide (line 525). -/
def hideT (t : TurtleState) : TurtleState :=
  { t with commandQueue := t.commandQueue ++ [Cmd.hide] }

/-- Turtle.show (line 528). -/
def showT (t : TurtleState) : TurtleState :=
  { t with commandQueue := t.commandQueue ++ [Cmd.show_] }

/-- Turtle.penup (line 531). -/
def penupT (t : TurtleState) : TurtleState :=
  { t with commandQueue := t.commandQueue ++ [Cmd.penup] }

/-- Turtle.pendown (line 534). -/
def pendownT (t : TurtleState) : TurtleState :=
  { t with commandQueue := t.commandQueue ++ [Cmd.pendown] }

/-- Turtle.forward (line 537). -/
def forwardT (t : TurtleState) (distance : ℝ) : TurtleState :=
  { t with commandQueue := t.commandQueue ++ [Cmd.forward distance] }

/-- Turtle.goto (line 540). -/
def gotoT (t : TurtleState) (x y : ℝ) : TurtleState :=
  { t with commandQueue := t.commandQueue ++ [Cmd.goto x y] }

/-- Turtle.teleport (line 543). -/
def teleportT (t : TurtleState) (x y : ℝ) : TurtleState :=
  { t with commandQueue := t.commandQueue ++ [Cmd.teleport x y] }

/-- Turtle.left (line 546). -/
def leftT (t : TurtleState) (angle : ℝ) : TurtleState :=
  { t with commandQueue := t.commandQueue ++ [Cmd.left angle] }

/-- Turtle.right (line 549). -/
def rightT (t : TurtleState) (angle : ℝ) : TurtleState :=
  { t with commandQueue := t.commandQueue ++ [Cmd.right angle] }

/-- Turtle.home (line 552). -/
def homeT (t : TurtleState) : TurtleState :=
  { t with commandQueue := t.commandQueue ++ [Cmd.home] }

/-- Turtle.setx (line 555). -/
def setxT (t : TurtleState) (x : ℝ) : TurtleState :=
  { t with commandQueue := t.commandQueue ++ [Cmd.setx x] }

/-- Turtle.sety (line 558). -/
def setyT (t : TurtleState) (y : ℝ) : TurtleState :=
  { t with commandQueue := t.commandQueue ++ [Cmd.sety y] }

/-- Turtle.set_heading (line 561). -/
def setHeadingT (t : TurtleState) (angle : ℝ) : TurtleState :=
  { t with commandQueue := t.commandQueue ++ [Cmd.setHeading angle] }

/-- Turtle.head_towards (line 564) for a point argument. -/
def headTowardsT (t : TurtleState) (x y : ℝ) : TurtleState :=
  { t with commandQueue := t.commandQueue ++ [Cmd.headTowards x y] }

/- ### Undo and redo (core.py lines 509-523) -/

/-- Turtle.undo (core.py lines 509-516).  `none` means the Python call
raises IndexError (redo_path.pop(0) on an empty list when the depth is 0,
or path[-1].pop() on an empty last segment). -/
def undoT (t : TurtleState) : Option TurtleState :=
  if t.path.isEmpty || t.path.all List.isEmpty then
    some (match popBackSplit t.commandQueue with
      | some (c, q) =>
          { t with commandQueue := q, redoCommand := t.redoCommand ++ [c] }
      | none => t)
  else
    (if t.undoStack ≤ t.redoPath.length then popFront t.redoPath
     else some t.redoPath).bind (fun r1 =>
      (t.path.getLast?).bind (fun seg =>
        (popBackSplit seg).map (fun qs =>
          { t with path := t.path.dropLast ++ [qs.2],
                   redoPath := r1 ++ [qs.1] })))

/-- Turtle.redo (core.py lines 518-523).  Total: every pop is guarded. -/
def redoT (t : TurtleState) : TurtleState :=
  if t.redoPath.isEmpty || t.path.isEmpty then
    match popBackSplit t.redoCommand with
    | some (c, r) =>
        { t with redoCommand := r, commandQueue := t.commandQueue ++ [c] }
    | none => t
  else
    -- both guards below always match: redoPath and path are non-empty here
    match popBackSplit t.redoPath, t.path.getLast? with
    | some (q, r), some seg =>
        { t with redoPath := r, path := t.path.dropLast ++ [seg ++ [q]] }
    | _, _ => t

/-- Iterated undo in the Option monad. -/
def undoIter : ℕ → TurtleState → Option TurtleState
  | 0, t => some t
  | n + 1, t => (undoT t).bind (undoIter n)

/- ### Circle decomposition (Navigator.circle, core.py lines 243-267) -/

/-- The default step count max(12, int(abs(radius)·π/4)); int() truncates,
which on a nonnegative float is the floor. -/
noncomputable def circleSteps (radius : ℤ) : ℕ :=
  max 12 (⌊(|radius| : ℝ) * Real.pi / 4⌋).toNat

/-- The forward/turn pairs appended by the loop of Navigator.circle, in
queue order. -/
def repPair (a b : Cmd) : ℕ → List Cmd
  | 0 => []
  | n + 1 => a :: b :: repPair a b n

/-- Navigator.circle (core.py lines 243-267): the block of commands the
call appends to the queue.  A caller-supplied steps value of 0 would
divide by zero in Python (ZeroDivisionError); that case is never exercised
here.  The unknown-direction ValueError branch is unrepresentable with
`Dir`. -/
noncomputable def circleCmds (radius : ℤ) (stepsOpt : Option ℕ) (dir : Dir) :
    List Cmd :=
  let steps : ℕ := match stepsOpt with
    | some s => s
    | none => circleSteps radius
  let circumference := 2 * Real.pi * (|radius| : ℝ)
  let stepLen := circumference / (steps : ℝ)
  let turn0 : ℝ := 360 / (steps : ℝ)
  let turn := if radius < 0 then -turn0 else turn0
  let rot : ℝ → Cmd := match dir with
    | Dir.left => Cmd.left
    | Dir.right => Cmd.right
  repPair (Cmd.forward stepLen) (rot turn) steps

/-- Turtle.circle (core.py lines 573-579): appends the decomposition to
the command queue. -/
noncomputable def circleT (t : TurtleState) (radius : ℤ) (stepsOpt : Option ℕ)
    (dir : Dir) : TurtleState :=
  { t with commandQueue := t.commandQueue ++ circleCmds radius stepsOpt dir }

/-- The sum of the turn-angle arguments of the rotation commands in a
command list. -/
def turnSum : List Cmd → ℝ
  | [] => 0
  | Cmd.left a :: r => a + turnSum r
  | Cmd.right a :: r => a + turnSum r
  | _ :: r => turnSum r

/- ### Command execution (Turtle._start_command, core.py lines 596-621) -/

/-- Pen.penup as inherited through Turtle._new_path (core.py lines
116-118 and 588-590): drop the pen, commit the live path onto the canvas
(non-permanent, using the undo stack), then open a fresh empty segment.
Fails when the commit raises. -/
def penupExec (t : TurtleState) : Option TurtleState :=
  (commitToCanvas false true { t with penDown := false }).map
    (fun u => { u with path := u.path ++ [[]] })

/-- Turtle._clear (core.py lines 505-507): wipe the canvas and the live
path. -/
def clearExec (t : TurtleState) : TurtleState :=
  { t with canvas := [], path := [] }

/-- Turtle._dot (core.py lines 570-571): a one-pixel rect at the render
position. -/
def dotExec (t : TurtleState) : TurtleState :=
  { t with canvas := t.canvas ++ [DrawOp.rect t.color t.renderPos] }

/-- Turtle._start_command (core.py lines 596-621): dispatch through the
command table.  `none` when the dispatched operation raises (set_color
with no arguments, or a failing commit inside penup).  The glyph-rotation
cache update guarded by `self.figure is not None` only touches the glyph
raster, which is outside the modelled state. -/
noncomputable def startCommand (t : TurtleState) (c : Cmd) : Option TurtleState :=
  match c with
  | Cmd.forward d => some (navForward t d)
  | Cmd.goto x y => some (navGoto t x y)
  | Cmd.teleport x y => some (navTeleport t x y)
  | Cmd.left a => some (navLeft t a)
  | Cmd.right a => some (navRight t a)
  | Cmd.home => some (navGoto t t.origin.1 t.origin.2)
  | Cmd.setx x => some (navGoto t x t.renderPos.2)
  | Cmd.sety y => some (navGoto t t.renderPos.1 y)
  | Cmd.setHeading a => some { t with heading := a }
  | Cmd.headTowards x y => some { t with heading := navTowards t x y }
  | Cmd.hide => some { t with visible := false }
  | Cmd.show_ => some { t with visible := true }
  | Cmd.penup => penupExec t
  | Cmd.pendown => some { t with penDown := true }
  | Cmd.setSize n => some { t with size := n }
  | Cmd.setSpeed v => some { t with speed := v }
  | Cmd.setColor args => (penSetColor args).map (fun col => { t with color := col })
  | Cmd.clear => some (clearExec t)
  | Cmd.dot => some (dotExec t)

/-- Turtle._command_done (core.py lines 623-628): a positional command
(forward/goto) is done when the remaining distance to the target is
within max(0.1, speed·0.02); any other situation reports done. -/
noncomputable def commandDoneP (t : TurtleState) : Prop :=
  match t.currentCommand with
  | some (Cmd.forward _) =>
      mathDist t.renderPos t.targetPos ≤ max (0.1 : ℝ) (t.speed * 0.02)
  | some (Cmd.goto _ _) =>
      mathDist t.renderPos t.targetPos ≤ max (0.1 : ℝ) (t.speed * 0.02)
  | _ => True

/-- Turtle._mark (core.py lines 592-594, calling Pen._mark lines
126-129): clear the redo-point stack, lazily create a first segment, and
append the render position to the last segment. -/
def markT (t : TurtleState) : TurtleState :=
  let path1 := if t.path.isEmpty then [[]] else t.path
  { t with redoPath := [],
           path := path1.dropLast ++ [((path1.getLast?).getD []) ++ [t.renderPos]] }

/-- The guard of step 1 of Turtle._update (core.py line 631): the live
path is non-empty and its last segment has grown past the undo-stack
depth. -/
def overBudget (t : TurtleState) : Bool :=
  match t.path.getLast? with
  | some seg => t.undoStack < seg.length
  | none => false

open Classical in
/-- Turtle._update (core.py lines 630-644) for one frame with `dtMs`
elapsed milliseconds on the screen clock (the code divides by 1000):
partial permanent commit when over budget, dequeue and start the next
command when idle, advance the motion model, retire a done command, and
mark a path point when the pen is down and the render position differs
from the target. -/
noncomputable def turtleUpdate (dtMs : ℝ) (t : TurtleState) : Option TurtleState :=
  (if overBudget t then commitToCanvas true false t else some t).bind (fun t1 =>
    (match t1.currentCommand, t1.commandQueue with
      | none, c :: rest =>
          startCommand { t1 with commandQueue := rest, currentCommand := some c } c
      | _, _ => some t1).map (fun t2 =>
      let t3 := navUpdate t2 (dtMs / 1000)
      let t4 := if commandDoneP t3 then { t3 with currentCommand := none } else t3
      if t4.penDown = true ∧ t4.renderPos ≠ t4.targetPos then markT t4 else t4))

/-- Turtle.reset (core.py lines 479-486) on a w-by-h screen: re-home the
origin, target and render position, clear the command queue, then
Turtle._clear wipes the canvas and the live path. -/
noncomputable def resetT (w h : ℝ) (t : TurtleState) : TurtleState :=
  clearExec { t with origin := screenCenter w h,
                     targetPos := screenCenter w h,
                     renderPos := screenCenter w h,
                     commandQueue := [] }

/-- Turtle.undo never touches these; named for reuse across claims. -/
def SameCore (t u : TurtleState) : Prop :=
  u.renderPos = t.renderPos ∧ u.targetPos = t.targetPos ∧ u.heading = t.heading ∧
  u.penDown = t.penDown ∧ u.visible = t.visible ∧ u.color = t.color ∧
  u.size = t.size ∧ u.path = t.path

/-- A public cursor call that only appends one command to the queue. -/
def EnqueueOnly (t u : TurtleState) (c : Cmd) : Prop :=
  SameCore t u ∧ u.commandQueue = t.commandQueue ++ [c]

/- ### Helper lemmas -/

lemma enqueue_frame (t : TurtleState) (c : Cmd) :
    EnqueueOnly t { t with commandQueue := t.commandQueue ++ [c] } c :=
  ⟨⟨rfl, rfl, rfl, rfl, rfl, rfl, rfl, rfl⟩, rfl⟩

/- ### Claims -/

/-- Claim C7: every public motion/style call on a cursor only appends one
command tuple to the cursor's queue and executes nothing synchronously:
render position, target position, heading, pen-down flag, visibility,
color, stroke width and path are untouched by the call itself. -/
theorem C7_enqueue_only (t : TurtleState) (d x y a v : ℝ) (n : ℤ)
    (args : ColorArgs) :
    EnqueueOnly t (forwardT t d) (Cmd.forward d) ∧
    EnqueueOnly t (gotoT t x y) (Cmd.goto x y) ∧
    EnqueueOnly t (teleportT t x y) (Cmd.teleport x y) ∧
    EnqueueOnly t (leftT t a) (Cmd.left a) ∧
    EnqueueOnly t (rightT t a) (Cmd.right a) ∧
    EnqueueOnly t (homeT t) Cmd.home ∧
    EnqueueOnly t (setxT t x) (Cmd.setx x) ∧
    EnqueueOnly t (setyT t y) (Cmd.sety y) ∧
    EnqueueOnly t (setHeadingT t a) (Cmd.setHeading a) ∧
    EnqueueOnly t (headTowardsT t x y) (Cmd.headTowards x y) ∧
    EnqueueOnly t (penupT t) Cmd.penup ∧
    EnqueueOnly t (pendownT t) Cmd.pendown ∧
    EnqueueOnly t (hideT t) Cmd.hide ∧
    EnqueueOnly t (showT t) Cmd.show_ ∧
    EnqueueOnly t (setSizeT t n) (Cmd.setSize n) ∧
    EnqueueOnly t (setSpeedT t v) (Cmd.setSpeed v) ∧
    EnqueueOnly t (setColorT t args) (Cmd.setColor args) :=
  ⟨enqueue_frame t _, enqueue_frame t _, enqueue_frame t _, enqueue_frame t _,
   enqueue_frame t _, enqueue_frame t _, enqueue_frame t _, enqueue_frame t _,
   enqueue_frame t _, enqueue_frame t _, enqueue_frame t _, enqueue_frame t _,
   enqueue_frame t _, enqueue_frame t _, enqueue_frame t _, enqueue_frame t _,
   enqueue_frame t _⟩

/-- Claim C10: reset clears the command queue, empties the live path,
wipes the committed raster layer, and re-homes render, target and origin
to the canvas centre, while heading, speed, color, stroke width, pen
state, visibility and the undo/redo stacks are untouched. -/
theorem C10_reset (w h : ℝ) (t : TurtleState) :
    (resetT w h t).commandQueue = [] ∧
    (resetT w h t).path = [] ∧
    (resetT w h t).canvas = [] ∧
    (resetT w h t).renderPos = screenCenter w h ∧
    (resetT w h t).targetPos = screenCenter w h ∧
    (resetT w h t).origin = screenCenter w h ∧
    (resetT w h t).heading = t.heading ∧
    (resetT w h t).speed = t.speed ∧
    (resetT w h t).color = t.color ∧
    (resetT w h t).size = t.size ∧
    (resetT w h t).penDown = t.penDown ∧
    (resetT w h t).visible = t.visible ∧
    (resetT w h t).undoStack = t.undoStack ∧
    (resetT w h t).redoPath = t.redoPath ∧
    (resetT w h t).redoCommand = t.redoCommand :=
  ⟨rfl, rfl, rfl, rfl, rfl, rfl, rfl, rfl, rfl, rfl, rfl, rfl, rfl, rfl, rfl⟩

/-- Claim C4 counterexample: calling set_color with no arguments on a
freshly created cursor does not fail at call time and does change the
command queue (the unvalidated command tuple is enqueued), refuting the
claim that the call is rejected immediately and the queue left unchanged. -/
theorem C4_counterexample :
    (setColorT (mkTurtle 800 600 20 true) ColorArgs.noArgs).commandQueue =
      [Cmd.setColor ColorArgs.noArgs] ∧
    (setColorT (mkTurtle 800 600 20 true) ColorArgs.noArgs).commandQueue ≠
      (mkTurtle 800 600 20 true).commandQueue := by
  constructor
  · rfl
  · simp [setColorT, mkTurtle]

/-- Claim C4 amended: Turtle.set_color with no arguments is NOT rejected
at call time; it only appends the command tuple to the queue (all other
cursor state unchanged), and the invalid-argument error surfaces later,
when the dispatcher starts executing the queued command. -/
theorem C4_amended (t : TurtleState) :
    EnqueueOnly t (setColorT t ColorArgs.noArgs) (Cmd.setColor ColorArgs.noArgs) ∧
    startCommand t (Cmd.setColor ColorArgs.noArgs) = none :=
  ⟨enqueue_frame t _, rfl⟩

/-- Claim C3 counterexample: a cursor created with undo-stack depth 0
whose path holds one recorded point makes undo() raise IndexError
(redo_path.pop(0) runs on the empty redo stack because
len(redo_path) >= undo_stack holds vacuously at depth 0), refuting the
claim that undo never raises for any depth d >= 0. -/
theorem C3_counterexample :
    undoT { mkTurtle 800 600 0 true with path := [[((1 : ℝ), (2 : ℝ))]] } = none := by
  rfl

/- ### Circle lemmas (claim C2) -/

lemma repPair_length (a b : Cmd) (n : ℕ) : (repPair a b n).length = 2 * n := by
  induction n with
  | zero => rfl
  | succ k ih => simp [repPair, ih]; omega

lemma turnSum_cons_forward (d : ℝ) (r : List Cmd) :
    turnSum (Cmd.forward d :: r) = turnSum r := rfl

lemma turnSum_repPair_forward_left (s a : ℝ) (n : ℕ) :
    turnSum (repPair (Cmd.forward s) (Cmd.left a) n) = n * a := by
  induction n with
  | zero => simp [repPair, turnSum]
  | succ k ih =>
      simp only [repPair, turnSum, ih]
      push_cast
      ring

lemma turnSum_repPair_forward_right (s a : ℝ) (n : ℕ) :
    turnSum (repPair (Cmd.forward s) (Cmd.right a) n) = n * a := by
  induction n with
  | zero => simp [repPair, turnSum]
  | succ k ih =>
      simp only [repPair, turnSum, ih]
      push_cast
      ring

/-- The default step count of circle(24): int(24·π/4) = int(6π) = 18,
because 18 ≤ 6π < 19. -/
lemma circleSteps_24 : circleSteps 24 = 18 := by
  have h1 : (3.141592 : ℝ) < Real.pi := Real.pi_gt_d6
  have h2 : Real.pi < 3.15 := Real.pi_lt_d2
  have habs : |((24 : ℤ) : ℝ)| = 24 := by norm_num
  have hf : ⌊|((24 : ℤ) : ℝ)| * Real.pi / 4⌋ = (18 : ℤ) := by
    rw [habs, Int.floor_eq_iff]
    constructor
    · push_cast
      nlinarith
    · push_cast
      nlinarith
  simp only [circleSteps, hf]
  decide

/-- Claim C2 counterexample: circle(24) with default steps enqueues 18
forward/turn pairs (36 commands), not the 19 pairs the claim derives from
a rounded step count: the code truncates with int(), and int(6π) = 18. -/
theorem C2_counterexample :
    (circleCmds 24 none Dir.left).length = 2 * 18 ∧
    (circleCmds 24 none Dir.left).length ≠ 2 * 19 := by
  have hlen : (circleCmds 24 none Dir.left).length = 2 * 18 := by
    simp only [circleCmds, circleSteps_24]
    exact repPair_length _ _ 18
  exact ⟨hlen, by rw [hlen]; norm_num⟩

/-- Claim C2 amended: the default step count is max(12, floor(π·|radius|/4))
(truncating int(), not rounding), so circle(radius=24) enqueues 18
forward/turn pairs; the sum of the enqueued turn amounts is exactly 360
degrees for radius 24, and in general ±360 with the sign given by the
radius (the per-step turn is 360/steps, negated for a negative radius). -/
theorem C2_amended :
    (circleCmds 24 none Dir.left).length = 2 * 18 ∧
    turnSum (circleCmds 24 none Dir.left) = 360 ∧
    (∀ (radius : ℤ) (dir : Dir),
      turnSum (circleCmds radius none dir) =
        if radius < 0 then (-360 : ℝ) else 360) := by
  refine ⟨?_, ?_, ?_⟩
  · simp only [circleCmds, circleSteps_24]
    exact repPair_length _ _ 18
  · simp only [circleCmds, circleSteps_24]
    rw [if_neg (by norm_num)]
    rw [turnSum_repPair_forward_left]
    norm_num
  · intro radius dir
    have h12 : 12 ≤ circleSteps radius := le_max_left _ _
    have hs : ((circleSteps radius : ℕ) : ℝ) ≠ 0 := by
      have : circleSteps radius ≠ 0 := by omega
      exact_mod_cast this
    cases dir with
    | left =>
        simp only [circleCmds]
        split_ifs with h
        · rw [turnSum_repPair_forward_left]
          field_simp
          ring
        · rw [turnSum_repPair_forward_left]
          field_simp
    | right =>
        simp only [circleCmds]
        split_ifs with h
        · rw [turnSum_repPair_forward_right]
          field_simp
          ring
        · rw [turnSum_repPair_forward_right]
          field_simp

/- ### Motion-model lemmas (claim C5) -/

lemma vabs_nonneg (v : Vec) : 0 ≤ vabs v := Real.sqrt_nonneg _

lemma vabs_eq_zero_iff (v : Vec) : vabs v = 0 ↔ v.1 = 0 ∧ v.2 = 0 := by
  unfold vabs
  rw [Real.sqrt_eq_zero']
  constructor
  · intro h
    constructor <;> nlinarith [sq_nonneg v.1, sq_nonneg v.2]
  · rintro ⟨h1, h2⟩
    rw [h1, h2]
    norm_num

lemma vabs_scale (a b k : ℝ) (hk : 0 ≤ k) :
    vabs (a * k, b * k) = vabs (a, b) * k := by
  unfold vabs
  have h : (a * k) ^ 2 + (b * k) ^ 2 = (a ^ 2 + b ^ 2) * k ^ 2 := by ring
  rw [h, Real.sqrt_mul (by positivity), Real.sqrt_sq hk]

lemma navUpdate_stop (t : TurtleState) (dt : ℝ)
    (h : vabs (t.targetPos.1 - t.renderPos.1, t.targetPos.2 - t.renderPos.2) = 0) :
    navUpdate t dt = t := by
  simp only [navUpdate]
  rw [if_pos h]

lemma navUpdate_move (t : TurtleState) (dt : ℝ)
    (h : vabs (t.targetPos.1 - t.renderPos.1, t.targetPos.2 - t.renderPos.2) ≠ 0) :
    navUpdate t dt =
      { t with renderPos :=
          (t.renderPos.1 +
             (t.targetPos.1 - t.renderPos.1) /
               vabs (t.targetPos.1 - t.renderPos.1, t.targetPos.2 - t.renderPos.2) *
               min (t.speed * dt)
                 (vabs (t.targetPos.1 - t.renderPos.1, t.targetPos.2 - t.renderPos.2)),
           t.renderPos.2 +
             (t.targetPos.2 - t.renderPos.2) /
               vabs (t.targetPos.1 - t.renderPos.1, t.targetPos.2 - t.renderPos.2) *
               min (t.speed * dt)
                 (vabs (t.targetPos.1 - t.renderPos.1, t.targetPos.2 - t.renderPos.2))) } := by
  simp only [navUpdate]
  rw [if_neg h]

/-- Claim C5: the per-frame advance is a no-op when the remaining vector
has length zero; otherwise the render position moves by exactly
min(speed·dt, remainingLength) along the unit direction toward the target
(so the new remaining distance is the old one minus the step, hence the
target is never overshot), the target itself is untouched, and as soon as
the remaining distance is at most one step the render position lands
exactly on the target. -/
theorem C5_frame_advance (t : TurtleState) (dt : ℝ) (hdt : 0 ≤ dt)
    (hsp : 0 ≤ t.speed) :
    (vabs (t.targetPos.1 - t.renderPos.1, t.targetPos.2 - t.renderPos.2) = 0 →
        navUpdate t dt = t) ∧
    (vabs (t.targetPos.1 - t.renderPos.1, t.targetPos.2 - t.renderPos.2) ≠ 0 →
        vabs ((navUpdate t dt).renderPos.1 - t.renderPos.1,
              (navUpdate t dt).renderPos.2 - t.renderPos.2) =
          min (t.speed * dt)
            (vabs (t.targetPos.1 - t.renderPos.1, t.targetPos.2 - t.renderPos.2)) ∧
        vabs (t.targetPos.1 - (navUpdate t dt).renderPos.1,
              t.targetPos.2 - (navUpdate t dt).renderPos.2) =
          vabs (t.targetPos.1 - t.renderPos.1, t.targetPos.2 - t.renderPos.2) -
            min (t.speed * dt)
              (vabs (t.targetPos.1 - t.renderPos.1, t.targetPos.2 - t.renderPos.2))) ∧
    (vabs (t.targetPos.1 - t.renderPos.1, t.targetPos.2 - t.renderPos.2) ≤
        t.speed * dt →
      (navUpdate t dt).renderPos = t.targetPos) ∧
    (navUpdate t dt).targetPos = t.targetPos := by
  refine ⟨navUpdate_stop t dt, ?_, ?_, ?_⟩
  · intro h
    have hDnn : 0 ≤ vabs (t.targetPos.1 - t.renderPos.1, t.targetPos.2 - t.renderPos.2) :=
      vabs_nonneg _
    have hD0 : 0 < vabs (t.targetPos.1 - t.renderPos.1, t.targetPos.2 - t.renderPos.2) :=
      lt_of_le_of_ne hDnn (Ne.symm h)
    have hDne : vabs (t.targetPos.1 - t.renderPos.1, t.targetPos.2 - t.renderPos.2) ≠ 0 := h
    have hs0 : 0 ≤ min (t.speed * dt)
        (vabs (t.targetPos.1 - t.renderPos.1, t.targetPos.2 - t.renderPos.2)) :=
      le_min (mul_nonneg hsp hdt) hDnn
    have hsD : min (t.speed * dt)
        (vabs (t.targetPos.1 - t.renderPos.1, t.targetPos.2 - t.renderPos.2)) ≤
        vabs (t.targetPos.1 - t.renderPos.1, t.targetPos.2 - t.renderPos.2) :=
      min_le_right _ _
    rw [navUpdate_move t dt h]
    constructor
    · have hc1 : t.renderPos.1 +
          (t.targetPos.1 - t.renderPos.1) /
            vabs (t.targetPos.1 - t.renderPos.1, t.targetPos.2 - t.renderPos.2) *
            min (t.speed * dt)
              (vabs (t.targetPos.1 - t.renderPos.1, t.targetPos.2 - t.renderPos.2)) -
          t.renderPos.1 =
          (t.targetPos.1 - t.renderPos.1) *
            (min (t.speed * dt)
              (vabs (t.targetPos.1 - t.renderPos.1, t.targetPos.2 - t.renderPos.2)) /
             vabs (t.targetPos.1 - t.renderPos.1, t.targetPos.2 - t.renderPos.2)) := by
        field_simp
        ring
      have hc2 : t.renderPos.2 +
          (t.targetPos.2 - t.renderPos.2) /
            vabs (t.targetPos.1 - t.renderPos.1, t.targetPos.2 - t.renderPos.2) *
            min (t.speed * dt)
              (vabs (t.targetPos.1 - t.renderPos.1, t.targetPos.2 - t.renderPos.2)) -
          t.renderPos.2 =
          (t.targetPos.2 - t.renderPos.2) *
            (min (t.speed * dt)
              (vabs (t.targetPos.1 - t.renderPos.1, t.targetPos.2 - t.renderPos.2)) /
             vabs (t.targetPos.1 - t.renderPos.1, t.targetPos.2 - t.renderPos.2)) := by
        field_simp
        ring
      show vabs (_, _) = _
      rw [hc1, hc2, vabs_scale _ _ _ (div_nonneg hs0 hDnn)]
      field_simp
    · have hc1 : t.targetPos.1 -
          (t.renderPos.1 +
            (t.targetPos.1 - t.renderPos.1) /
              vabs (t.targetPos.1 - t.renderPos.1, t.targetPos.2 - t.renderPos.2) *
              min (t.speed * dt)
                (vabs (t.targetPos.1 - t.renderPos.1, t.targetPos.2 - t.renderPos.2))) =
          (t.targetPos.1 - t.renderPos.1) *
            ((vabs (t.targetPos.1 - t.renderPos.1, t.targetPos.2 - t.renderPos.2) -
              min (t.speed * dt)
                (vabs (t.targetPos.1 - t.renderPos.1, t.targetPos.2 - t.renderPos.2))) /
             vabs (t.targetPos.1 - t.renderPos.1, t.targetPos.2 - t.renderPos.2)) := by
        field_simp
        ring
      have hc2 : t.targetPos.2 -
          (t.renderPos.2 +
            (t.targetPos.2 - t.renderPos.2) /
              vabs (t.targetPos.1 - t.renderPos.1, t.targetPos.2 - t.renderPos.2) *
              min (t.speed * dt)
                (vabs (t.targetPos.1 - t.renderPos.1, t.targetPos.2 - t.renderPos.2))) =
          (t.targetPos.2 - t.renderPos.2) *
            ((vabs (t.targetPos.1 - t.renderPos.1, t.targetPos.2 - t.renderPos.2) -
              min (t.speed * dt)
                (vabs (t.targetPos.1 - t.renderPos.1, t.targetPos.2 - t.renderPos.2))) /
             vabs (t.targetPos.1 - t.renderPos.1, t.targetPos.2 - t.renderPos.2)) := by
        field_simp
        ring
      show vabs (_, _) = _
      rw [hc1, hc2, vabs_scale _ _ _ (div_nonneg (sub_nonneg.mpr hsD) hDnn)]
      field_simp
  · intro h2
    by_cases hz : vabs (t.targetPos.1 - t.renderPos.1, t.targetPos.2 - t.renderPos.2) = 0
    · rw [navUpdate_stop t dt hz]
      have hcomp := (vabs_eq_zero_iff _).mp hz
      have hc1 : t.targetPos.1 - t.renderPos.1 = 0 := hcomp.1
      have hc2 : t.targetPos.2 - t.renderPos.2 = 0 := hcomp.2
      refine Prod.ext_iff.mpr ⟨?_, ?_⟩
      · linarith
      · linarith
    · have hmin : min (t.speed * dt)
          (vabs (t.targetPos.1 - t.renderPos.1, t.targetPos.2 - t.renderPos.2)) =
          vabs (t.targetPos.1 - t.renderPos.1, t.targetPos.2 - t.renderPos.2) :=
        min_eq_right h2
      rw [navUpdate_move t dt hz]
      show ((t.renderPos.1 + _, t.renderPos.2 + _) : Vec) = t.targetPos
      rw [hmin]
      have he1 : t.renderPos.1 +
          (t.targetPos.1 - t.renderPos.1) /
            vabs (t.targetPos.1 - t.renderPos.1, t.targetPos.2 - t.renderPos.2) *
            vabs (t.targetPos.1 - t.renderPos.1, t.targetPos.2 - t.renderPos.2) =
          t.targetPos.1 := by
        field_simp
      have he2 : t.renderPos.2 +
          (t.targetPos.2 - t.renderPos.2) /
            vabs (t.targetPos.1 - t.renderPos.1, t.targetPos.2 - t.renderPos.2) *
            vabs (t.targetPos.1 - t.renderPos.1, t.targetPos.2 - t.renderPos.2) =
          t.targetPos.2 := by
        field_simp
      rw [he1, he2]
  · simp only [navUpdate]
    split <;> rfl

/-- A concrete cursor used to witness the motion-advance theorem. -/
noncomputable def tC5 : TurtleState :=
  { origin := (0, 0), renderPos := (0, 0), targetPos := (3, 4), heading := 0,
    speed := 1, color := (0, 0, 0), size := 2, penDown := true, visible := true,
    path := [[]], undoStack := 20, redoPath := [], redoCommand := [],
    canvas := [], commandQueue := [], currentCommand := none }

/-- Witness for C5 at a concrete cursor and dt = 1. -/
theorem C5_frame_advance_witness :
    ((0 : ℝ) ≤ 1 ∧ (0 : ℝ) ≤ tC5.speed) ∧
    (navUpdate tC5 1).targetPos = tC5.targetPos :=
  ⟨⟨by norm_num, by norm_num [tC5]⟩,
   (C5_frame_advance tC5 1 (by norm_num) (by norm_num [tC5])).2.2.2⟩

/- ### Teleport frames (claim C9) -/

/-- One frame of Turtle._update that starts a queued teleport command:
the render and target positions land on the teleport point, the command
retires immediately (teleport is not positional), and no path point is
marked because render equals target. -/
lemma turtleUpdate_teleport (t : TurtleState) (x y : ℝ) (rest : List Cmd)
    (dt : ℝ)
    (hcur : t.currentCommand = none)
    (hq : t.commandQueue = Cmd.teleport x y :: rest)
    (hb : overBudget t = false) :
    turtleUpdate dt t =
      some { t with renderPos := (x, y), targetPos := (x, y),
                    commandQueue := rest, currentCommand := none } := by
  have h1 : (if overBudget t then commitToCanvas true false t else some t) = some t := by
    rw [hb]
    rfl
  unfold turtleUpdate
  rw [h1]
  rw [Option.some_bind]
  rw [hcur, hq]
  have hstop : navUpdate
      { t with renderPos := (x, y), targetPos := (x, y),
               commandQueue := rest, currentCommand := some (Cmd.teleport x y) } (dt / 1000) =
      { t with renderPos := (x, y), targetPos := (x, y),
               commandQueue := rest, currentCommand := some (Cmd.teleport x y) } := by
    apply navUpdate_stop
    show vabs (x - x, y - y) = 0
    simp [vabs]
  show Option.map _ (startCommand _ (Cmd.teleport x y)) = _
  show Option.map _ (some (navTeleport _ x y)) = _
  rw [Option.map_some']
  unfold navTeleport
  dsimp only
  rw [hstop]
  have hdone : commandDoneP
      { t with renderPos := (x, y), targetPos := (x, y),
               commandQueue := rest, currentCommand := some (Cmd.teleport x y) } := by
    simp [commandDoneP]
  rw [if_pos hdone]
  rw [if_neg]
  intro hcontra
  exact hcontra.2 rfl

/-- Claim C9: executing teleport(p) twice in a row (two frames, the two
commands queued back to back) leaves render and target position exactly
where the first teleport put them and records no path point in either
frame, because the per-frame update only marks a point when the render
position differs from the target. -/
theorem C9_teleport_idempotent (t : TurtleState) (x y : ℝ) (rest : List Cmd)
    (dt1 dt2 : ℝ)
    (hcur : t.currentCommand = none)
    (hq : t.commandQueue = Cmd.teleport x y :: Cmd.teleport x y :: rest)
    (hb : overBudget t = false) :
    ∃ s1 s2,
      turtleUpdate dt1 t = some s1 ∧
      turtleUpdate dt2 s1 = some s2 ∧
      s1.renderPos = (x, y) ∧ s1.targetPos = (x, y) ∧
      s2.renderPos = s1.renderPos ∧ s2.targetPos = s1.targetPos ∧
      s2.path = s1.path := by
  refine ⟨_, _, turtleUpdate_teleport t x y (Cmd.teleport x y :: rest) dt1 hcur hq hb,
          turtleUpdate_teleport _ x y rest dt2 rfl rfl ?_, rfl, rfl, rfl, rfl, rfl⟩
  exact hb

/-- A concrete cursor with two identical queued teleports. -/
noncomputable def tC9 : TurtleState :=
  { mkTurtle 800 600 20 true with
      commandQueue := [Cmd.teleport 5 6, Cmd.teleport 5 6] }

/-- Witness for C9 at a concrete cursor and frames of dt = 16 ms. -/
theorem C9_teleport_idempotent_witness :
    (tC9.currentCommand = none ∧
     tC9.commandQueue = Cmd.teleport 5 6 :: Cmd.teleport 5 6 :: [] ∧
     overBudget tC9 = false) ∧
    ∃ s1 s2,
      turtleUpdate 16 tC9 = some s1 ∧
      turtleUpdate 16 s1 = some s2 ∧
      s1.renderPos = (5, 6) ∧ s1.targetPos = (5, 6) ∧
      s2.renderPos = s1.renderPos ∧ s2.targetPos = s1.targetPos ∧
      s2.path = s1.path :=
  ⟨⟨rfl, rfl, rfl⟩,
   C9_teleport_idempotent tC9 5 6 [] 16 16 rfl rfl rfl⟩

/- ### Forward-motion frames (claim C8) -/

lemma vabs_x (a : ℝ) (ha : 0 ≤ a) : vabs (a, 0) = a := by
  unfold vabs
  rw [show a ^ 2 + (0 : ℝ) ^ 2 = a ^ 2 by ring, Real.sqrt_sq ha]

lemma mathDist_x (a b y : ℝ) : mathDist (a, y) (b, y) = |a - b| := by
  unfold mathDist
  rw [show (a - b) ^ 2 + ((y : ℝ) - y) ^ 2 = (a - b) ^ 2 by ring,
      Real.sqrt_sq_eq_abs]

/-- Navigator._update only ever changes the render position. -/
lemma navUpdate_only_render (t : TurtleState) (dt : ℝ) :
    navUpdate t dt = { t with renderPos := (navUpdate t dt).renderPos } := by
  simp only [navUpdate]
  split <;> rfl

/-- Navigator._update along the +x axis: the render position advances by
min(speed·dt, g − r). -/
lemma navUpdate_xaxis_render (t : TurtleState) (dt r g y : ℝ)
    (hr : t.renderPos = (r, y)) (hg : t.targetPos = (g, y)) (hlt : r < g) :
    (navUpdate t dt).renderPos = (r + min (t.speed * dt) (g - r), y) := by
  have hpos : 0 < g - r := sub_pos.mpr hlt
  have hnn : 0 ≤ g - r := le_of_lt hpos
  have hne : g - r ≠ 0 := ne_of_gt hpos
  have hd : vabs (t.targetPos.1 - t.renderPos.1, t.targetPos.2 - t.renderPos.2) =
      g - r := by
    rw [hr, hg]
    show vabs (g - r, y - y) = g - r
    rw [sub_self]
    exact vabs_x _ hnn
  rw [navUpdate_move t dt (by rw [hd]; exact hne)]
  dsimp only
  rw [hd, hr, hg]
  dsimp only
  refine Prod.ext_iff.mpr ⟨?_, ?_⟩
  · rw [div_self hne, one_mul]
  · rw [sub_self, zero_div, zero_mul, add_zero]

/-- Navigator.forward at heading 0 moves the target straight along +x. -/
lemma navForward_heading0 (t : TurtleState) (d : ℝ) (hh : t.heading = 0) :
    navForward t d = { t with targetPos := (t.targetPos.1 + d, t.targetPos.2) } := by
  unfold navForward
  rw [hh]
  dsimp only
  rw [show (0 : ℝ) * Real.pi / 180 = 0 by ring, Real.cos_zero, Real.sin_zero,
      mul_one, mul_zero, add_zero]

/-- Frame 1 of the C8 scenario: an idle cursor at (c1, c2) with heading 0,
speed 50 and a queued forward(100), updated with dt = 1000 ms: the forward
command starts (target moves to (c1+100, c2)), the render position
advances 50 units along +x, the command is not done yet, and the pen
marks the new render position. -/
lemma c8_frame1gen (t : TurtleState) (c1 c2 : ℝ)
    (h1 : t.renderPos = (c1, c2)) (h2 : t.targetPos = (c1, c2))
    (h3 : t.heading = 0) (h4 : t.speed = 50)
    (h5 : t.path = [[]]) (h7 : t.commandQueue = [Cmd.forward 100])
    (h8 : t.currentCommand = none) (h9 : t.penDown = true) :
    turtleUpdate 1000 t =
      some { t with renderPos := (c1 + 50, c2), targetPos := (c1 + 100, c2),
                    path := [[(c1 + 50, c2)]], redoPath := [],
                    commandQueue := [], currentCommand := some (Cmd.forward 100) } := by
  have hb : overBudget t = false := by
    unfold overBudget
    rw [h5]
    simp
  have hif : (if overBudget t then commitToCanvas true false t else some t) = some t := by
    rw [hb]
    rfl
  unfold turtleUpdate
  rw [hif, Option.some_bind, h8, h7]
  show Option.map _ (startCommand _ (Cmd.forward 100)) = _
  show Option.map _ (some (navForward _ 100)) = _
  rw [Option.map_some']
  rw [navForward_heading0
        { t with commandQueue := ([] : List Cmd),
                 currentCommand := some (Cmd.forward 100) } 100 h3]
  dsimp only
  rw [h2]
  dsimp only
  have hnav : navUpdate
      { t with targetPos := ((c1, c2).1 + 100, (c1, c2).2),
               commandQueue := ([] : List Cmd),
               currentCommand := some (Cmd.forward 100) } (1000 / 1000) =
      { t with targetPos := (c1 + 100, c2),
               commandQueue := ([] : List Cmd),
               currentCommand := some (Cmd.forward 100),
               renderPos := (c1 + 50, c2) } := by
    rw [navUpdate_only_render]
    have hrp : (navUpdate
        { t with targetPos := ((c1, c2).1 + 100, (c1, c2).2),
                 commandQueue := ([] : List Cmd),
                 currentCommand := some (Cmd.forward 100) } (1000 / 1000)).renderPos =
        (c1 + 50, c2) := by
      rw [navUpdate_xaxis_render
            { t with targetPos := ((c1, c2).1 + 100, (c1, c2).2),
                     commandQueue := ([] : List Cmd),
                     currentCommand := some (Cmd.forward 100) }
            (1000 / 1000) c1 (c1 + 100) c2 h1 rfl (by linarith)]
      refine Prod.ext_iff.mpr ⟨?_, rfl⟩
      dsimp only
      rw [h4]
      have h100 : c1 + 100 - c1 = (100 : ℝ) := by ring
      rw [h100]
      have h50 : (50 : ℝ) * (1000 / 1000) = 50 := by norm_num
      rw [h50, min_eq_left (by norm_num : (50 : ℝ) ≤ 100)]
    rw [hrp]
  rw [hnav]
  have hnotdone : ¬ commandDoneP
      { t with targetPos := (c1 + 100, c2), commandQueue := ([] : List Cmd),
               currentCommand := some (Cmd.forward 100),
               renderPos := (c1 + 50, c2) } := by
    show ¬ (mathDist (c1 + 50, c2) (c1 + 100, c2) ≤ max (0.1 : ℝ) (t.speed * 0.02))
    rw [mathDist_x, h4]
    rw [show c1 + 50 - (c1 + 100) = (-50 : ℝ) by ring]
    rw [show |(-50 : ℝ)| = 50 by norm_num]
    rw [show max (0.1 : ℝ) ((50 : ℝ) * 0.02) = 1 by norm_num [max_eq_right]]
    norm_num
  rw [if_neg hnotdone]
  have hne : ((c1 + 50, c2) : Vec) ≠ ((c1 + 100, c2) : Vec) := by
    intro he
    have hfst := congrArg Prod.fst he
    dsimp at hfst
    linarith
  rw [if_pos (And.intro h9 hne)]
  unfold markT
  dsimp only
  rw [h5]
  rfl

/-- Frame 2 of the C8 scenario: the forward command is in flight, 50
units from its target; with dt = 1000 ms the render position lands
exactly on the target, the command passes the completion test and is
retired, and no further point is marked. -/
lemma c8_frame2gen (t : TurtleState) (c1 c2 : ℝ)
    (h1 : t.renderPos = (c1 + 50, c2)) (h2 : t.targetPos = (c1 + 100, c2))
    (h4 : t.speed = 50) (h5 : t.path = [[(c1 + 50, c2)]])
    (h6 : t.undoStack = 20)
    (h8 : t.currentCommand = some (Cmd.forward 100)) :
    turtleUpdate 1000 t =
      some { t with renderPos := (c1 + 100, c2), currentCommand := none } := by
  have hb : overBudget t = false := by
    unfold overBudget
    rw [h5]
    simp [h6]
  have hif : (if overBudget t then commitToCanvas true false t else some t) = some t := by
    rw [hb]
    rfl
  have hnav : navUpdate t (1000 / 1000) = { t with renderPos := (c1 + 100, c2) } := by
    rw [navUpdate_only_render]
    have hrp : (navUpdate t (1000 / 1000)).renderPos = (c1 + 100, c2) := by
      rw [navUpdate_xaxis_render t (1000 / 1000) (c1 + 50) (c1 + 100) c2 h1 h2
            (by linarith)]
      refine Prod.ext_iff.mpr ⟨?_, rfl⟩
      dsimp only
      rw [h4]
      rw [show c1 + 100 - (c1 + 50) = (50 : ℝ) by ring]
      rw [show (50 : ℝ) * (1000 / 1000) = 50 by norm_num]
      rw [min_self]
      ring
    rw [hrp]
  have hdone : commandDoneP { t with renderPos := (c1 + 100, c2) } := by
    unfold commandDoneP
    rw [show ({ t with renderPos := (c1 + 100, c2) } : TurtleState).currentCommand =
          some (Cmd.forward 100) from h8]
    dsimp only
    rw [h2]
    rw [mathDist_x]
    rw [show c1 + 100 - (c1 + 100) = (0 : ℝ) by ring]
    rw [show |(0 : ℝ)| = 0 by norm_num]
    exact le_trans (by norm_num) (le_max_left (0.1 : ℝ) _)
  unfold turtleUpdate
  rw [hif, Option.some_bind, h8]
  cases hq2 : t.commandQueue <;>
    simp only [Option.map_some'] <;>
    rw [hnav, if_pos hdone, if_neg (fun hc => hc.2 h2.symm)] <;>
    simp [hq2]

/-- Claim C8: a cursor at the canvas centre with speed 50 and heading 0
that enqueues forward(100) and is advanced in frames of 1000 ms: after
one frame the render position has moved exactly 50 units along +x (y
unchanged) and the command is still active and not yet done; after the
second frame the render position equals the 100-unit target and the
command has been retired, where a positional (forward) command counts as
done exactly when the remaining distance is within max(0.1, speed·0.02). -/
theorem C8_forward_two_frames (w h : ℝ) :
    ∃ s1 s2,
      turtleUpdate 1000 (forwardT (mkTurtle w h 20 true) 100) = some s1 ∧
      turtleUpdate 1000 s1 = some s2 ∧
      s1.renderPos = ((screenCenter w h).1 + 50, (screenCenter w h).2) ∧
      s1.targetPos = ((screenCenter w h).1 + 100, (screenCenter w h).2) ∧
      s1.currentCommand = some (Cmd.forward 100) ∧
      ¬ commandDoneP s1 ∧
      s2.renderPos = s1.targetPos ∧
      s2.currentCommand = none ∧
      (∀ (u : TurtleState) (d : ℝ),
        commandDoneP { u with currentCommand := some (Cmd.forward d) } ↔
          mathDist u.renderPos u.targetPos ≤ max (0.1 : ℝ) (u.speed * 0.02)) := by
  have hf1 := c8_frame1gen (forwardT (mkTurtle w h 20 true) 100) (w / 2) (h / 2)
    rfl rfl rfl rfl rfl rfl rfl rfl
  have hf2 := c8_frame2gen
    { forwardT (mkTurtle w h 20 true) 100 with
        renderPos := (w / 2 + 50, h / 2), targetPos := (w / 2 + 100, h / 2),
        path := [[(w / 2 + 50, h / 2)]], redoPath := [],
        commandQueue := [], currentCommand := some (Cmd.forward 100) }
    (w / 2) (h / 2) rfl rfl rfl rfl rfl rfl
  have hnd : ¬ (mathDist (w / 2 + 50, h / 2) (w / 2 + 100, h / 2) ≤
      max (0.1 : ℝ) ((50 : ℝ) * 0.02)) := by
    rw [mathDist_x]
    rw [show w / 2 + 50 - (w / 2 + 100) = (-50 : ℝ) by ring]
    rw [show |(-50 : ℝ)| = 50 by norm_num]
    rw [show max (0.1 : ℝ) ((50 : ℝ) * 0.02) = 1 by norm_num [max_eq_right]]
    norm_num
  exact ⟨_, _, hf1, hf2, rfl, rfl, rfl, hnd, rfl, rfl, fun u d => Iff.rfl⟩

/- ### Undo lemmas (claims C3 and C6) -/

lemma popFront_eq_tail (l : List α) (h : l ≠ []) : popFront l = some l.tail := by
  cases l with
  | nil => exact absurd rfl h
  | cons a r => rfl

lemma popBackSplit_concat (l : List α) (a : α) :
    popBackSplit (l ++ [a]) = some (a, l) := by
  simp [popBackSplit, List.getLast?_concat, List.dropLast_concat]

/-- Turtle.undo when the live path has no recorded point anywhere: the
most recently enqueued command (if any) moves to the redo-command stack. -/
lemma undoT_queue (t : TurtleState)
    (hP : (t.path.isEmpty || t.path.all List.isEmpty) = true) :
    undoT t = some (match popBackSplit t.commandQueue with
      | some (c, q) =>
          { t with commandQueue := q, redoCommand := t.redoCommand ++ [c] }
      | none => t) := by
  unfold undoT
  simp only [hP, if_true]

/-- Turtle.undo when the last segment holds a point: the point moves to
the redo-point stack, evicting its front entry when at capacity. -/
lemma undoT_point (t : TurtleState) (front : List (List Vec)) (seg : List Vec)
    (p : Vec) (hpath : t.path = front ++ [seg ++ [p]])
    (hpop : t.undoStack ≤ t.redoPath.length → t.redoPath ≠ []) :
    undoT t = some { t with path := front ++ [seg],
                            redoPath := (if t.undoStack ≤ t.redoPath.length
                              then t.redoPath.tail else t.redoPath) ++ [p] } := by
  have hP : (t.path.isEmpty || t.path.all List.isEmpty) = false := by
    rw [hpath]
    simp
  unfold undoT
  simp only [hP, Bool.false_eq_true, if_false]
  rw [hpath, List.getLast?_concat, List.dropLast_concat]
  by_cases hev : t.undoStack ≤ t.redoPath.length
  · rw [if_pos hev, if_pos hev, popFront_eq_tail _ (hpop hev), Option.some_bind,
        Option.some_bind, popBackSplit_concat, Option.map_some']
  · rw [if_neg hev, if_neg hev, Option.some_bind, Option.some_bind,
        popBackSplit_concat, Option.map_some']

/-- Claim C3 amended: undo() never raises provided the depth is at least
1 and the last segment is non-empty whenever any segment holds a point
(with depth 0, or with a trailing empty segment after points exist, undo
raises IndexError).  Under those conditions it behaves as claimed: with no
recorded points anywhere it pops the most recently enqueued not-yet-started
command onto the redo-command stack (doing nothing when the queue is
empty); otherwise it pops the last point of the last segment onto the
redo-point stack, evicting the front entry when at capacity, so the
redo-point stack stays capped at the depth. -/
theorem C3_undo_amended (t : TurtleState)
    (hd : 1 ≤ t.undoStack)
    (hlast : ∀ seg, t.path.getLast? = some seg → seg = [] →
        t.path.all List.isEmpty = true) :
    ∃ u, undoT t = some u ∧
      (((t.path.isEmpty || t.path.all List.isEmpty) = true →
          (t.commandQueue = [] → u = t) ∧
          (∀ q c, t.commandQueue = q ++ [c] →
            u = { t with commandQueue := q,
                         redoCommand := t.redoCommand ++ [c] })) ∧
       ((t.path.isEmpty || t.path.all List.isEmpty) = false →
          ∀ front seg p, t.path = front ++ [seg ++ [p]] →
            u = { t with path := front ++ [seg],
                         redoPath := (if t.undoStack ≤ t.redoPath.length
                           then t.redoPath.tail else t.redoPath) ++ [p] }) ∧
       (t.redoPath.length ≤ t.undoStack →
          u.redoPath.length ≤ t.undoStack)) := by
  by_cases hP : (t.path.isEmpty || t.path.all List.isEmpty) = true
  · refine ⟨_, undoT_queue t hP, ?_, ?_, ?_⟩
    · intro _
      constructor
      · intro hq
        rw [hq]
        rfl
      · intro q c hqc
        rw [hqc, popBackSplit_concat]
    · intro hcontra
      rw [hP] at hcontra
      exact absurd hcontra (by simp)
    · intro hlen
      rcases List.eq_nil_or_concat t.commandQueue with hq | ⟨q, c, hq⟩
      · rw [hq]
        exact hlen
      · rw [hq, List.concat_eq_append, popBackSplit_concat]
        exact hlen
  · have hPf : (t.path.isEmpty || t.path.all List.isEmpty) = false :=
      Bool.eq_false_iff.mpr hP
    have hpne : t.path ≠ [] := by
      intro h0
      rw [h0] at hPf
      simp at hPf
    obtain ⟨fr, sg, hfs⟩ : ∃ fr sg, t.path = fr ++ [sg] := by
      rcases List.eq_nil_or_concat t.path with h0 | ⟨fr, sg, h0⟩
      · exact absurd h0 hpne
      · exact ⟨fr, sg, by rw [h0, List.concat_eq_append]⟩
    have hsgne : sg ≠ [] := by
      intro h0
      have hlastq : t.path.getLast? = some sg := by
        rw [hfs]
        exact List.getLast?_concat _
      have hall := hlast sg hlastq h0
      rw [hall] at hPf
      simp at hPf
    obtain ⟨sg0, p, hsg⟩ : ∃ sg0 p, sg = sg0 ++ [p] := by
      rcases List.eq_nil_or_concat sg with h0 | ⟨a, b, h0⟩
      · exact absurd h0 hsgne
      · exact ⟨a, b, by rw [h0, List.concat_eq_append]⟩
    have hpath : t.path = fr ++ [sg0 ++ [p]] := by rw [hfs, hsg]
    have hpop : t.undoStack ≤ t.redoPath.length → t.redoPath ≠ [] := by
      intro hev h0
      rw [h0] at hev
      simp at hev
      omega
    refine ⟨_, undoT_point t fr sg0 p hpath hpop, ?_, ?_, ?_⟩
    · intro hcontra
      rw [hPf] at hcontra
      exact absurd hcontra (by simp)
    · intro _ front seg q hpath2
      have he : fr ++ [sg0 ++ [p]] = front ++ [seg ++ [q]] := by
        rw [← hpath, hpath2]
      have hfr : fr = front := by
        have := congrArg List.dropLast he
        simpa [List.dropLast_concat] using this
      have hsgq : sg0 ++ [p] = seg ++ [q] := by
        have := congrArg List.getLast? he
        simpa [List.getLast?_concat] using this
      have hqp : p = q := by
        have := congrArg List.getLast? hsgq
        simpa [List.getLast?_concat] using this
      have hsg0 : sg0 = seg := by
        have := congrArg List.dropLast hsgq
        simpa [List.dropLast_concat] using this
      subst hfr
      subst hqp
      subst hsg0
      rfl
    · intro hlen
      show ((if t.undoStack ≤ t.redoPath.length
              then t.redoPath.tail else t.redoPath) ++ [p]).length ≤ t.undoStack
      by_cases hev : t.undoStack ≤ t.redoPath.length
      · rw [if_pos hev, List.length_append, List.length_tail]
        have hpos : 0 < t.redoPath.length := List.length_pos.mpr (hpop hev)
        simp
        omega
      · rw [if_neg hev, List.length_append]
        simp
        omega

/-- A concrete cursor with one recorded point and depth 20, witnessing
the amended undo claim. -/
noncomputable def tC3w : TurtleState :=
  { mkTurtle 800 600 20 true with path := [[((3 : ℝ), (4 : ℝ))]] }

/-- Witness for the amended C3 at a concrete cursor. -/
theorem C3_undo_amended_witness :
    (1 ≤ tC3w.undoStack ∧
     (∀ seg, tC3w.path.getLast? = some seg → seg = [] →
        tC3w.path.all List.isEmpty = true)) ∧
    (∃ u, undoT tC3w = some u ∧
      (((tC3w.path.isEmpty || tC3w.path.all List.isEmpty) = true →
          (tC3w.commandQueue = [] → u = tC3w) ∧
          (∀ q c, tC3w.commandQueue = q ++ [c] →
            u = { tC3w with commandQueue := q,
                            redoCommand := tC3w.redoCommand ++ [c] })) ∧
       ((tC3w.path.isEmpty || tC3w.path.all List.isEmpty) = false →
          ∀ front seg p, tC3w.path = front ++ [seg ++ [p]] →
            u = { tC3w with path := front ++ [seg],
                            redoPath := (if tC3w.undoStack ≤ tC3w.redoPath.length
                              then tC3w.redoPath.tail else tC3w.redoPath) ++ [p] }) ∧
       (tC3w.redoPath.length ≤ tC3w.undoStack →
          u.redoPath.length ≤ tC3w.undoStack))) :=
  ⟨⟨by norm_num [tC3w, mkTurtle], by simp [tC3w, mkTurtle]⟩,
   C3_undo_amended tC3w (by norm_num [tC3w, mkTurtle]) (by simp [tC3w, mkTurtle])⟩

/-- The cumulative effect of k undo calls on a cursor whose last segment
holds at least k points (k within the undo budget): the last k points
move, in reverse order, to the back of the redo-point stack, while
eviction drops exactly k - (depth - |redoPath|) entries (truncated) from
its front. -/
lemma undo_phase (k : ℕ) :
    ∀ (t : TurtleState) (front : List (List Vec)) (qs : List Vec),
      t.path = front ++ [qs] → k ≤ qs.length → qs.length ≤ t.undoStack →
      undoIter k t = some
        { t with path := front ++ [qs.take (qs.length - k)],
                 redoPath :=
                   t.redoPath.drop (k - (t.undoStack - t.redoPath.length)) ++
                     (qs.drop (qs.length - k)).reverse } := by
  induction k with
  | zero =>
      intro t front qs hpath hk hN
      simp only [undoIter]
      rw [Nat.sub_zero, List.take_length, List.drop_length, Nat.zero_sub,
          List.drop_zero]
      rw [List.reverse_nil, List.append_nil, ← hpath]
  | succ k ih =>
      intro t front qs hpath hk hN
      have hqsne : qs ≠ [] := by
        intro h0
        rw [h0] at hk
        simp at hk
      obtain ⟨A, q, hA⟩ : ∃ A q, qs = A ++ [q] := by
        rcases List.eq_nil_or_concat qs with h0 | ⟨A, q, h0⟩
        · exact absurd h0 hqsne
        · exact ⟨A, q, by rw [h0, List.concat_eq_append]⟩
      have hlenA : A.length + 1 = qs.length := by
        rw [hA]
        simp
      have hpop : t.undoStack ≤ t.redoPath.length → t.redoPath ≠ [] := by
        intro hev h0
        rw [h0] at hev
        simp at hev
        omega
      have h1 := undoT_point t front A q (by rw [hpath, hA]) hpop
      rw [show undoIter (k + 1) t = (undoT t).bind (undoIter k) from rfl, h1,
          Option.some_bind]
      have h2 := ih
        { t with path := front ++ [A],
                 redoPath := (if t.undoStack ≤ t.redoPath.length
                   then t.redoPath.tail else t.redoPath) ++ [q] }
        front A rfl (by omega) (by show A.length ≤ t.undoStack; omega)
      rw [h2]
      dsimp only
      have hX : A.take (A.length - k) = qs.take (qs.length - (k + 1)) := by
        rw [hA]
        rw [show (A ++ [q]).length - (k + 1) = A.length - k by simp]
        rw [List.take_append_of_le_length (by omega)]
      by_cases hev : t.undoStack ≤ t.redoPath.length
      · have hj1 : 1 ≤ t.redoPath.length := by omega
        have hY : (t.redoPath.tail ++ [q]).drop
              (k - (t.undoStack - (t.redoPath.tail ++ [q]).length)) ++
              (A.drop (A.length - k)).reverse =
            t.redoPath.drop ((k + 1) - (t.undoStack - t.redoPath.length)) ++
              (qs.drop (qs.length - (k + 1))).reverse := by
          have hlen1 : (t.redoPath.tail ++ [q]).length = t.redoPath.length := by
            simp
            omega
          rw [hlen1]
          rw [show k - (t.undoStack - t.redoPath.length) = k by omega]
          rw [show (k + 1) - (t.undoStack - t.redoPath.length) = k + 1 by omega]
          rw [List.drop_append_of_le_length (by simp; omega)]
          rw [show t.redoPath.tail.drop k = t.redoPath.drop (k + 1) by
                rw [← List.drop_one, List.drop_drop, Nat.add_comm 1 k]]
          rw [hA]
          rw [show (A ++ [q]).length - (k + 1) = A.length - k by simp]
          rw [List.drop_append_of_le_length (by omega), List.reverse_append]
          simp
        rw [if_pos hev]
        rw [hX, hY]
      · have hY : (t.redoPath ++ [q]).drop
              (k - (t.undoStack - (t.redoPath ++ [q]).length)) ++
              (A.drop (A.length - k)).reverse =
            t.redoPath.drop ((k + 1) - (t.undoStack - t.redoPath.length)) ++
              (qs.drop (qs.length - (k + 1))).reverse := by
          have hlen1 : (t.redoPath ++ [q]).length = t.redoPath.length + 1 := by
            simp
          rw [hlen1]
          rw [show k - (t.undoStack - (t.redoPath.length + 1)) =
                (k + 1) - (t.undoStack - t.redoPath.length) by omega]
          rw [List.drop_append_of_le_length (by omega)]
          rw [hA]
          rw [show (A ++ [q]).length - (k + 1) = A.length - k by simp]
          rw [List.drop_append_of_le_length (by omega), List.reverse_append]
          simp
        rw [if_neg hev]
        rw [hX, hY]

/-- Turtle.redo when both the redo-point stack and the path are
non-empty: the most recent redo point moves back onto the last segment. -/
lemma redoT_point (t : TurtleState) (front : List (List Vec)) (cur R : List Vec)
    (p : Vec) (hpath : t.path = front ++ [cur]) (hredo : t.redoPath = R ++ [p]) :
    redoT t = { t with redoPath := R, path := front ++ [cur ++ [p]] } := by
  unfold redoT
  have h1 : t.redoPath.isEmpty = false := by
    rw [hredo]
    simp
  have h2 : t.path.isEmpty = false := by
    rw [hpath]
    simp
  rw [h1, h2]
  simp only [Bool.or_self, Bool.false_eq_true, if_false]
  rw [hredo, popBackSplit_concat, hpath, List.getLast?_concat,
      List.dropLast_concat]

/-- The cumulative effect of restoring `rest` (in order) with redo calls:
each call pops the back of the redo-point stack onto the last segment. -/
lemma redo_phase (rest : List Vec) :
    ∀ (t : TurtleState) (front : List (List Vec)) (cur R : List Vec),
      t.path = front ++ [cur] → t.redoPath = R ++ rest.reverse →
      redoT^[rest.length] t =
        { t with path := front ++ [cur ++ rest], redoPath := R } := by
  induction rest with
  | nil =>
      intro t front cur R hpath hredo
      simp only [List.length_nil, Function.iterate_zero, id]
      rw [List.append_nil, ← hpath]
      have hR : t.redoPath = R := by simpa using hredo
      rw [← hR]
  | cons p rest ih =>
      intro t front cur R hpath hredo
      have h1 := redoT_point t front cur (R ++ rest.reverse) p hpath
        (by rw [hredo, List.reverse_cons, ← List.append_assoc])
      rw [List.length_cons, Function.iterate_succ_apply, h1]
      rw [ih { t with path := front ++ [cur ++ [p]],
                      redoPath := R ++ rest.reverse }
            front (cur ++ [p]) R rfl rfl]
      rw [List.append_assoc cur [p] rest, List.singleton_append]

/-- Claim C6: for a cursor whose last path segment holds N points with
N within the undo-stack depth, N undo calls followed by N redo calls
restore the live path (in particular the last segment's point sequence)
exactly. -/
theorem C6_undo_redo_roundtrip (t : TurtleState) (front : List (List Vec))
    (qs : List Vec) (hpath : t.path = front ++ [qs])
    (hN : qs.length ≤ t.undoStack) :
    ∃ u, undoIter qs.length t = some u ∧
      (redoT^[qs.length] u).path = t.path := by
  have h1 := undo_phase qs.length t front qs hpath le_rfl hN
  simp only [Nat.sub_self, List.take_zero, List.drop_zero] at h1
  refine ⟨_, h1, ?_⟩
  rw [redo_phase qs
    { t with path := front ++ [[]],
             redoPath :=
               t.redoPath.drop (qs.length - (t.undoStack - t.redoPath.length)) ++
                 qs.reverse }
    front [] (t.redoPath.drop (qs.length - (t.undoStack - t.redoPath.length)))
    rfl rfl]
  rw [List.nil_append, ← hpath]

/-- A concrete cursor with a two-point segment and depth 20, witnessing
the undo/redo round trip. -/
noncomputable def tC6 : TurtleState :=
  { mkTurtle 800 600 20 true with
      path := [[((1 : ℝ), (1 : ℝ)), ((2 : ℝ), (2 : ℝ))]] }

/-- Witness for C6 at a concrete cursor. -/
theorem C6_undo_redo_roundtrip_witness :
    (tC6.path = [] ++ [[((1 : ℝ), (1 : ℝ)), ((2 : ℝ), (2 : ℝ))]] ∧
     [((1 : ℝ), (1 : ℝ)), ((2 : ℝ), (2 : ℝ))].length ≤ tC6.undoStack) ∧
    ∃ u, undoIter 2 tC6 = some u ∧ (redoT^[2] u).path = tC6.path :=
  ⟨⟨rfl, by norm_num [tC6, mkTurtle]⟩,
   C6_undo_redo_roundtrip tC6 [] [((1 : ℝ), (1 : ℝ)), ((2 : ℝ), (2 : ℝ))] rfl
     (by norm_num [tC6, mkTurtle])⟩

/- ### Commit lemmas (claim C1) -/

/-- A cursor with the given live path (all other fields as freshly
constructed with the given depth). -/
noncomputable def commitState (segs : List (List Vec)) (d : ℕ) : TurtleState :=
  { mkTurtle 800 600 d true with path := segs }

/-- A cursor holding one three-point segment at the default depth 20. -/
noncomputable def tC1 : TurtleState :=
  commitState [[((0 : ℝ), (0 : ℝ)), ((1 : ℝ), (0 : ℝ)), ((2 : ℝ), (0 : ℝ))]] 20

/-- Claim C1 counterexample: on a cursor whose single segment holds 3
points, the engine's permanent commit (using_undo_stack left at its
default False, depth 20) draws nothing and leaves the live path
unchanged: the segment keeps its 3 points instead of being flattened to
zero, because the most-recent segment is first truncated by the undo
budget even in permanent mode. -/
theorem C1_counterexample :
    commitT true false tC1 =
      some ([[((0 : ℝ), (0 : ℝ)), ((1 : ℝ), (0 : ℝ)), ((2 : ℝ), (0 : ℝ))]], []) ∧
    ([[((0 : ℝ), (0 : ℝ)), ((1 : ℝ), (0 : ℝ)), ((2 : ℝ), (0 : ℝ))]].getLast?.getD
        ([] : List Vec)).length ≠ 0 :=
  ⟨rfl, by simp⟩

/-- An iteration of the Turtle._commit walk that changes nothing: the
segment is not popped (permanent mode, or the last index) and is skipped
by one of the two length guards. -/
lemma commitSegStep_skip (perm uus : Bool) (d : ℕ) (col : Color) (sz : ℤ)
    (last : ℕ) (acc : CommitAcc) (i : ℕ) (segment : List Vec)
    (hnopop : perm = true ∨ i = last)
    (hskip : segment.length < 2 ∨
      (if uus ∨ i ≠ last then segment else commitSlice d segment).length < 3) :
    commitSegStep perm uus d col sz last acc (i, segment) = some acc := by
  unfold commitSegStep
  dsimp only
  rw [if_neg (by
    rcases hnopop with h | h
    · intro hc
      rw [h] at hc
      exact absurd rfl hc.1
    · intro hc
      exact hc.2 h)]
  rw [Option.some_bind]
  rcases hskip with hs | hs
  · rw [if_pos hs]
  · by_cases h2 : segment.length < 2
    · rw [if_pos h2]
    · rw [if_neg h2, if_pos hs]

/-- The undo-budget slice of a 3-point segment is always shorter than 3
(empty at depth 0, at most 2 points otherwise). -/
lemma commitSlice_three (d : ℕ) (a b c : Vec) :
    (commitSlice d [a, b, c]).length < 3 := by
  unfold commitSlice
  split
  · simp
  · rw [List.length_take]
    exact lt_of_le_of_lt (min_le_left _ _) (by simp; omega)

/-- Claim C1 amended: commit(permanent=true) does not flatten a segment
with at least 3 points to zero live points.  With the default
using_undo_stack=False (the engine's own permanent call), a 3-point
segment is first truncated by the undo budget, so nothing is drawn and
all 3 points stay live, for every depth.  With using_undo_stack=True the
3-point segment is drawn in full but the deletion loop removes only the
points at alternating re-indexed positions, leaving 2 live points; and on
a 6-point segment the deletion loop runs past the shrinking segment and
raises IndexError. -/
theorem C1_commit_amended :
    (∀ (a b c : Vec) (d : ℕ),
        commitT true false (commitState [[a, b, c]] d) =
          some ([[a, b, c]], [])) ∧
    (∀ (a b c : Vec) (d : ℕ),
        commitT true true (commitState [[a, b, c]] d) =
          some ([[b, c]], [DrawOp.lines (0, 0, 0) 2 [a, b, c]])) ∧
    (∀ (p1 p2 p3 p4 p5 p6 : Vec) (d : ℕ),
        commitT true true (commitState [[p1, p2, p3, p4, p5, p6]] d) = none) := by
  refine ⟨?_, ?_, ?_⟩
  · intro a b c d
    unfold commitT
    rw [show (commitState [[a, b, c]] d).path = [[a, b, c]] from rfl]
    rw [show ([[a, b, c]] : List (List Vec)).enum = [(0, [a, b, c])] from rfl]
    rw [List.foldlM_cons]
    rw [show (commitState [[a, b, c]] d).undoStack = d from rfl,
        show (commitState [[a, b, c]] d).color = ((0, 0, 0) : Color) from rfl,
        show (commitState [[a, b, c]] d).size = (2 : ℤ) from rfl,
        show ([[a, b, c]] : List (List Vec)).length - 1 = 0 from rfl]
    rw [commitSegStep_skip true false d (0, 0, 0) 2 0 ⟨[[a, b, c]], []⟩ 0 [a, b, c]
          (Or.inl rfl) (Or.inr (by rw [if_neg (by simp)]; exact commitSlice_three d a b c))]
    rfl
  · intro a b c d
    rfl
  · intro p1 p2 p3 p4 p5 p6 d
    rfl
